import Mathlib

/-!
Verification of the travel-request approval workflow: a shallow embedding of
the backend's request lifecycle (controllers and models), its user management
and login, and the database schema constraints, together with proofs of the
behavioural properties stated in the specification.

Conventions of the embedding:
- Database rows live in in-memory lists; SQL conditional updates
  (`UPDATE ... WHERE id = $1 AND status = '...'`) become guarded list maps.
- A thrown database error (constraint violation) is `Except.error ()`;
  the controllers' catch-all turns it into the `SERVER_ERROR` kind.
- JavaScript truthiness of request-body fields is modelled explicitly:
  a missing field and an empty string / zero number are equally falsy.
- Timestamps (`CURRENT_TIMESTAMP`) are an explicit `now : Int` parameter.
- A date string is represented by what the controller can observe of it:
  whether it is non-empty, and the epoch value `parseDate` yields on it
  (`none` for an unparseable string). A stored DATE rendered back to a
  string is non-empty and parses to the stored value.
-/

/-- Role of a user: `role IN ('user', 'approver', 'admin')`. -/
inductive Role where
  | user
  | approver
  | admin
deriving DecidableEq, BEq, Repr

/-- Status of a travel request:
`status IN ('draft', 'pending', 'approved', 'rejected', 'cancelled')`. -/
inductive TravelRequestStatus where
  | draft
  | pending
  | approved
  | rejected
  | cancelled
deriving DecidableEq, BEq, Repr

/-- Observable error kinds of the backend API (the `error` field of a
non-2xx JSON response). -/
inductive ErrorKind where
  | MISSING_FIELD
  | INVALID_DATE_RANGE
  | INVALID_BUDGET
  | CANNOT_SELF_APPROVE
  | APPROVER_NOT_FOUND
  | APPROVER_INACTIVE
  | NOT_AN_APPROVER
  | REQUEST_NOT_FOUND
  | FORBIDDEN
  | CANNOT_UPDATE_SUBMITTED
  | COMMENTS_REQUIRED
  | CANNOT_SUBMIT
  | CANNOT_APPROVE
  | CANNOT_REJECT
  | CANNOT_CANCEL
  | CANNOT_DELETE
  | UPDATE_FAILED
  | SERVER_ERROR
  | USER_NOT_FOUND
  | EMAIL_EXISTS
  | INVALID_EMAIL
  | INVALID_ROLE
  | CANNOT_DEACTIVATE_SELF
  | CANNOT_DELETE_SELF
  | MISSING_FIELDS
  | INVALID_CREDENTIALS
  | ACCOUNT_DEACTIVATED
deriving DecidableEq, BEq, Repr

deriving instance DecidableEq for Except

instance : LawfulBEq Role where
  eq_of_beq := by
    intro a b h
    cases a <;> cases b <;> first | rfl | exact absurd h (by decide)
  rfl := by
    intro a
    cases a <;> rfl

instance : LawfulBEq TravelRequestStatus where
  eq_of_beq := by
    intro a b h
    cases a <;> cases b <;> first | rfl | exact absurd h (by decide)
  rfl := by
    intro a
    cases a <;> rfl

/-- A date string as the backend observes it: whether the string is
non-empty (its JS truthiness), and the epoch value `parseDate` / `new Date`
yields on it (`none` when the string parses to an invalid date). -/
structure JSDateString where
  nonempty : Bool
  parsed : Option Int
deriving DecidableEq, Repr

/-- Source `parseDate`: converts a date string to a date, `null` if invalid. -/
def parseDate (s : JSDateString) : Option Int := s.parsed

/-- Source `isValidDateRange`: parse both dates; if either is invalid the
range is invalid; otherwise the return date must be on or after departure. -/
def isValidDateRange (departureDate returnDate : JSDateString) : Bool :=
  match parseDate departureDate, parseDate returnDate with
  | some dep, some ret => decide (dep ≤ ret)
  | _, _ => false

/-- Rendering of a stored DATE column value back to a string, as done by
`existingRequest.departure_date.toString()`: a non-empty string that parses
back to the stored value. -/
def storedDateStr (v : Int) : JSDateString := ⟨true, some v⟩

/-- Placeholder for an absent date string field (JS `undefined` used as a
string is falsy and unparseable). -/
def emptyDateStr : JSDateString := ⟨false, none⟩

/-- JS truthiness of an optional string field: present and non-empty. -/
def truthyS (s : Option String) : Bool :=
  match s with
  | none => false
  | some v => v != ""

/-- JS truthiness of an optional date-string field. -/
def truthyD (s : Option JSDateString) : Bool :=
  match s with
  | none => false
  | some v => v.nonempty

/-- JS truthiness of an optional numeric field: present and non-zero. -/
def truthyN (n : Option Int) : Bool :=
  match n with
  | none => false
  | some v => v != 0

/-- JS `value || null` on an optional string: an absent or empty string
becomes NULL. -/
def jsOrNull (s : Option String) : Option String :=
  match s with
  | none => none
  | some v => if v = "" then none else some v

/-- User row of the `users` table. -/
structure User where
  id : String
  email : String
  password_hash : String
  first_name : String
  last_name : String
  role : Role
  is_active : Bool
  created_at : Int
  updated_at : Int
deriving DecidableEq, Repr

/-- User record with sensitive data removed (no `password_hash`). -/
structure UserResponse where
  id : String
  email : String
  first_name : String
  last_name : String
  role : Role
  is_active : Bool
  created_at : Int
  updated_at : Int
deriving DecidableEq, Repr

/-- Source `sanitizeUser`: drop `password_hash`, keep everything else. -/
def sanitizeUser (u : User) : UserResponse :=
  ⟨u.id, u.email, u.first_name, u.last_name, u.role, u.is_active,
    u.created_at, u.updated_at⟩

/-- Travel request row of the `travel_requests` table. -/
structure TravelRequest where
  id : String
  user_id : String
  approver_id : String
  destination : String
  departure_date : Int
  return_date : Int
  purpose : String
  estimated_budget : Int
  transportation_mode : Option String
  accommodation_details : Option String
  additional_notes : Option String
  status : TravelRequestStatus
  approval_comments : Option String
  submitted_at : Option Int
  approved_rejected_at : Option Int
  created_at : Int
  updated_at : Int
deriving DecidableEq, Repr

/-- The database state: the `users` and `travel_requests` tables. -/
structure AppState where
  users : List User
  requests : List TravelRequest
deriving DecidableEq, Repr

/-- The verified token payload a controller reads from `req.user`. -/
structure AuthUser where
  userId : String
  email : String
  role : Role
deriving DecidableEq, Repr

/-- Row-level constraints of `travel_requests` checked by the database on
every INSERT and on every row written by an UPDATE:
`CHECK (estimated_budget > 0)`, `CONSTRAINT check_dates`,
`CONSTRAINT check_approver_not_self`, and the two foreign keys into
`users`. -/
def travelRowOk (users : List User) (r : TravelRequest) : Bool :=
  decide (0 < r.estimated_budget) &&
  decide (r.departure_date ≤ r.return_date) &&
  (r.user_id != r.approver_id) &&
  users.any (fun u => u.id == r.user_id) &&
  users.any (fun u => u.id == r.approver_id)

/-- Primary-key uniqueness of `travel_requests.id`. -/
def UniqueReqIds (st : AppState) : Prop :=
  st.requests.Pairwise (fun a b => a.id ≠ b.id)

/-- Body of POST /api/travel-requests (`CreateTravelRequestData`): every
field may be absent from the JSON payload. -/
structure CreateTravelRequestData where
  approver_id : Option String := none
  destination : Option String := none
  departure_date : Option JSDateString := none
  return_date : Option JSDateString := none
  purpose : Option String := none
  estimated_budget : Option Int := none
  transportation_mode : Option String := none
  accommodation_details : Option String := none
  additional_notes : Option String := none
deriving DecidableEq, Repr

/-- Body of PUT /api/travel-requests/:id (`UpdateTravelRequestData`):
a partial patch, `none` meaning the field is absent (`undefined`). -/
structure UpdateTravelRequestData where
  approver_id : Option String := none
  destination : Option String := none
  departure_date : Option JSDateString := none
  return_date : Option JSDateString := none
  purpose : Option String := none
  estimated_budget : Option Int := none
  transportation_mode : Option String := none
  accommodation_details : Option String := none
  additional_notes : Option String := none
deriving DecidableEq, Repr

/-- Source `findTravelRequestById`: `SELECT * FROM travel_requests WHERE id = $1`. -/
def findTravelRequestById (st : AppState) (requestId : String) : Option TravelRequest :=
  st.requests.find? (fun r => r.id == requestId)

/-- Source `createTravelRequest` (travelRequestModel): INSERT the new row in
`draft` or `pending` status, with `submitted_at` set when not a draft.
A NULL required column, an unparseable date, a duplicate primary key or a
violated table constraint makes the INSERT throw (`Except.error ()`). -/
def createTravelRequest (st : AppState) (userId : String)
    (requestData : CreateTravelRequestData) (isDraft : Bool) (now : Int)
    (newId : String) : Except Unit (TravelRequest × AppState) :=
  match requestData.approver_id, requestData.destination,
      requestData.departure_date, requestData.return_date,
      requestData.purpose, requestData.estimated_budget with
  | some approver_id, some destination, some dep, some ret, some purpose,
      some estimated_budget =>
    match dep.parsed, ret.parsed with
    | some depV, some retV =>
      let row : TravelRequest :=
        { id := newId
          user_id := userId
          approver_id := approver_id
          destination := destination
          departure_date := depV
          return_date := retV
          purpose := purpose
          estimated_budget := estimated_budget
          transportation_mode := jsOrNull requestData.transportation_mode
          accommodation_details := jsOrNull requestData.accommodation_details
          additional_notes := jsOrNull requestData.additional_notes
          status := if isDraft then .draft else .pending
          approval_comments := none
          submitted_at := if isDraft then none else some now
          approved_rejected_at := none
          created_at := now
          updated_at := now }
      if st.requests.any (fun r => r.id == newId) then .error ()
      else if travelRowOk st.users row then
        .ok (row, { st with requests := st.requests ++ [row] })
      else .error ()
    | _, _ => .error ()
  | _, _, _, _, _, _ => .error ()

/-- Whether the dynamic UPDATE of `updateTravelRequest` has any field to
set (each `updateData.<field> !== undefined` test). -/
def hasUpdateFields (u : UpdateTravelRequestData) : Bool :=
  u.approver_id.isSome || u.destination.isSome || u.departure_date.isSome ||
  u.return_date.isSome || u.purpose.isSome || u.estimated_budget.isSome ||
  u.transportation_mode.isSome || u.accommodation_details.isSome ||
  u.additional_notes.isSome

/-- New row value written by the UPDATE of `updateTravelRequest` for one
matching row; `none` when a provided date string does not parse as a DATE
(which makes the statement throw). -/
def patchRow (u : UpdateTravelRequestData) (now : Int) (r : TravelRequest) :
    Option TravelRequest :=
  let dep : Option Int :=
    match u.departure_date with
    | none => some r.departure_date
    | some s => s.parsed
  let ret : Option Int :=
    match u.return_date with
    | none => some r.return_date
    | some s => s.parsed
  match dep, ret with
  | some depV, some retV =>
    some { r with
      approver_id := u.approver_id.getD r.approver_id
      destination := u.destination.getD r.destination
      departure_date := depV
      return_date := retV
      purpose := u.purpose.getD r.purpose
      estimated_budget := u.estimated_budget.getD r.estimated_budget
      transportation_mode :=
        match u.transportation_mode with
        | none => r.transportation_mode
        | some s => some s
      accommodation_details :=
        match u.accommodation_details with
        | none => r.accommodation_details
        | some s => some s
      additional_notes :=
        match u.additional_notes with
        | none => r.additional_notes
        | some s => some s
      updated_at := now }
  | _, _ => none

/-- Source `updateTravelRequest` (travelRequestModel): with no fields to
set, return the current row; otherwise
`UPDATE travel_requests SET ... WHERE id = $n AND status = 'draft'`.
Rows matching the WHERE clause are rewritten; the statement throws when a
written row has an unparseable date or violates a table constraint; the
returned row is the first rewritten one (`result.rows[0] || null`). -/
def updateTravelRequest (st : AppState) (requestId : String)
    (u : UpdateTravelRequestData) (now : Int) :
    Except Unit (Option TravelRequest × AppState) :=
  if hasUpdateFields u then
    let hit := fun (r : TravelRequest) =>
      r.id == requestId && r.status == TravelRequestStatus.draft
    if st.requests.any (fun r => hit r &&
        match patchRow u now r with
        | none => true
        | some r2 => !(travelRowOk st.users r2)) then
      .error ()
    else
      .ok ((st.requests.find? hit).bind (patchRow u now),
        { st with requests :=
            st.requests.map (fun r => if hit r then (patchRow u now r).getD r else r) })
  else
    .ok (findTravelRequestById st requestId, st)

/-- Source `submitDraftRequest`:
`UPDATE ... SET status = 'pending', submitted_at = CURRENT_TIMESTAMP, updated_at = CURRENT_TIMESTAMP WHERE id = $1 AND status = 'draft' RETURNING *`. -/
def submitDraftRequest (st : AppState) (requestId : String) (now : Int) :
    Option TravelRequest × AppState :=
  let hit := fun (r : TravelRequest) =>
    r.id == requestId && r.status == TravelRequestStatus.draft
  let upd := fun (r : TravelRequest) =>
    { r with status := TravelRequestStatus.pending
             submitted_at := some now
             updated_at := now }
  match st.requests.find? hit with
  | none => (none, st)
  | some r0 =>
    (some (upd r0),
      { st with requests := st.requests.map (fun r => if hit r then upd r else r) })

/-- Source `approveTravelRequest`: set status `approved`, store
`comments || null`, stamp `approved_rejected_at`, guarded by
`WHERE id = $1 AND status = 'pending'`. -/
def approveTravelRequest (st : AppState) (requestId : String)
    (comments : Option String) (now : Int) : Option TravelRequest × AppState :=
  let hit := fun (r : TravelRequest) =>
    r.id == requestId && r.status == TravelRequestStatus.pending
  let upd := fun (r : TravelRequest) =>
    { r with status := TravelRequestStatus.approved
             approval_comments := jsOrNull comments
             approved_rejected_at := some now
             updated_at := now }
  match st.requests.find? hit with
  | none => (none, st)
  | some r0 =>
    (some (upd r0),
      { st with requests := st.requests.map (fun r => if hit r then upd r else r) })

/-- Source `rejectTravelRequest`: set status `rejected`, store the comments,
stamp `approved_rejected_at`, guarded by `WHERE id = $1 AND status = 'pending'`. -/
def rejectTravelRequest (st : AppState) (requestId : String)
    (comments : String) (now : Int) : Option TravelRequest × AppState :=
  let hit := fun (r : TravelRequest) =>
    r.id == requestId && r.status == TravelRequestStatus.pending
  let upd := fun (r : TravelRequest) =>
    { r with status := TravelRequestStatus.rejected
             approval_comments := some comments
             approved_rejected_at := some now
             updated_at := now }
  match st.requests.find? hit with
  | none => (none, st)
  | some r0 =>
    (some (upd r0),
      { st with requests := st.requests.map (fun r => if hit r then upd r else r) })

/-- Source `cancelTravelRequest`: set status `cancelled`, guarded by
`WHERE id = $1 AND status = 'pending'`. -/
def cancelTravelRequest (st : AppState) (requestId : String) (now : Int) :
    Option TravelRequest × AppState :=
  let hit := fun (r : TravelRequest) =>
    r.id == requestId && r.status == TravelRequestStatus.pending
  let upd := fun (r : TravelRequest) =>
    { r with status := TravelRequestStatus.cancelled
             updated_at := now }
  match st.requests.find? hit with
  | none => (none, st)
  | some r0 =>
    (some (upd r0),
      { st with requests := st.requests.map (fun r => if hit r then upd r else r) })

/-- Source `deleteTravelRequest`:
`DELETE FROM travel_requests WHERE id = $1 AND status = 'draft' RETURNING id`;
reports `rowCount > 0`. -/
def deleteTravelRequest (st : AppState) (requestId : String) :
    Bool × AppState :=
  let hit := fun (r : TravelRequest) =>
    r.id == requestId && r.status == TravelRequestStatus.draft
  if st.requests.any hit then
    (true, { st with requests := st.requests.filter (fun r => !(hit r)) })
  else
    (false, st)

/-- Result of `countTravelRequests`: counts of requests by status. -/
structure TravelRequestStats where
  total : Nat
  draft : Nat
  pending : Nat
  approved : Nat
  rejected : Nat
  cancelled : Nat
deriving DecidableEq, Repr

/-- Source `countTravelRequests`: one aggregate query counting all rows and
the rows of each status, optionally restricted to one user
(`if (userId)` is a truthiness test, so an empty-string filter is ignored). -/
def countTravelRequests (st : AppState) (userId : Option String) :
    TravelRequestStats :=
  let rows :=
    match userId with
    | some u => if u = "" then st.requests
                else st.requests.filter (fun r => r.user_id == u)
    | none => st.requests
  { total := rows.length
    draft := (rows.filter (fun r => r.status == TravelRequestStatus.draft)).length
    pending := (rows.filter (fun r => r.status == TravelRequestStatus.pending)).length
    approved := (rows.filter (fun r => r.status == TravelRequestStatus.approved)).length
    rejected := (rows.filter (fun r => r.status == TravelRequestStatus.rejected)).length
    cancelled := (rows.filter (fun r => r.status == TravelRequestStatus.cancelled)).length }

/-- Source `isRequestOwner`:
`SELECT id FROM travel_requests WHERE id = $1 AND user_id = $2`, `rowCount > 0`. -/
def isRequestOwner (st : AppState) (requestId userId : String) : Bool :=
  st.requests.any (fun r => r.id == requestId && r.user_id == userId)

/-- Source `isRequestApprover`:
`SELECT id FROM travel_requests WHERE id = $1 AND approver_id = $2`, `rowCount > 0`. -/
def isRequestApprover (st : AppState) (requestId userId : String) : Bool :=
  st.requests.any (fun r => r.id == requestId && r.approver_id == userId)

/-- Source `findUserById`: `SELECT * FROM users WHERE id = $1`. -/
def findUserById (st : AppState) (userId : String) : Option User :=
  st.users.find? (fun u => u.id == userId)

/-- Source `findUserByEmail`: `SELECT * FROM users WHERE email = $1`
(case-sensitive comparison). -/
def findUserByEmail (st : AppState) (email : String) : Option User :=
  st.users.find? (fun u => u.email == email)

/-- Source `emailExists`: `SELECT id FROM users WHERE email = $1`, with
`AND id != $2` appended only when `excludeUserId` is truthy. -/
def emailExists (st : AppState) (email : String)
    (excludeUserId : Option String) : Bool :=
  if truthyS excludeUserId then
    st.users.any (fun u => u.email == email && u.id != excludeUserId.getD "")
  else
    st.users.any (fun u => u.email == email)

/-- Fields that can be updated for a user (`UserUpdateData`); the role field
is typed, so the controller's check that a provided role is one of the three
known role strings cannot fail in this embedding. -/
structure UserUpdateData where
  email : Option String := none
  first_name : Option String := none
  last_name : Option String := none
  role : Option Role := none
  is_active : Option Bool := none
deriving DecidableEq, Repr

/-- Whether the dynamic UPDATE of `updateUser` has any field to set. -/
def hasUserUpdateFields (u : UserUpdateData) : Bool :=
  u.email.isSome || u.first_name.isSome || u.last_name.isSome ||
  u.role.isSome || u.is_active.isSome

/-- New row value written by the UPDATE of `updateUser` for one matching row. -/
def userPatch (u : UserUpdateData) (now : Int) (x : User) : User :=
  { x with email := u.email.getD x.email
           first_name := u.first_name.getD x.first_name
           last_name := u.last_name.getD x.last_name
           role := u.role.getD x.role
           is_active := u.is_active.getD x.is_active
           updated_at := now }

/-- Source `updateUser` (userModel): with no fields to set, return the
current row; otherwise `UPDATE users SET ... WHERE id = $n RETURNING *`.
The `users.email UNIQUE` constraint makes the statement throw when a written
row would share its email with a different user. -/
def updateUser (st : AppState) (userId : String) (u : UserUpdateData)
    (now : Int) : Except Unit (Option User × AppState) :=
  if hasUserUpdateFields u then
    let hit := fun (x : User) => x.id == userId
    let newUsers := st.users.map (fun x => if hit x then userPatch u now x else x)
    if newUsers.any (fun x => hit x &&
        newUsers.any (fun y => y.id != x.id && y.email == x.email)) then
      .error ()
    else
      .ok ((st.users.find? hit).map (userPatch u now),
        { st with users := newUsers })
  else
    .ok (findUserById st userId, st)

/-- JS `\s` whitespace characters relevant to email validation (the common
ASCII subset; the source regex also excludes Unicode spaces, which no claim
exercises). -/
def jsWhitespace (c : Char) : Bool :=
  c == ' ' || c == '\t' || c == '\n' || c == '\r' || c == '\x0b' || c == '\x0c'

/-- JS `String.prototype.trim`: strip leading and trailing whitespace. -/
def jsTrim (s : String) : String :=
  String.mk (((s.toList.dropWhile jsWhitespace).reverse.dropWhile jsWhitespace).reverse)

/-- A character admissible in the source email regex classes: `[^\s@]`. -/
def emailChar (c : Char) : Bool :=
  !(jsWhitespace c) && c != '@'

/-- Source `isValidEmail`: the regex `^[^\s@]+@[^\s@]+\.[^\s@]+$`.
Equivalently: exactly one `@`; a non-empty local part of non-space
non-`@` characters; and a domain part of non-space non-`@` characters
containing a `.` that is neither its first nor its last character. -/
def isValidEmail (email : String) : Bool :=
  match email.toList.splitOn '@' with
  | [local_, domain] =>
    !local_.isEmpty && local_.all emailChar &&
    domain.all emailChar &&
    ((domain.drop 1).dropLast.contains '.')
  | _ => false

/-- Payload of the JWT issued on login; the token is modelled by the data it
carries. -/
structure TokenPayload where
  userId : String
  email : String
  role : Role
deriving DecidableEq, Repr

/-- Observable outcome of a login call. -/
inductive LoginOutcome where
  | ok (user : UserResponse) (token : TokenPayload)
  | err (e : ErrorKind)
deriving DecidableEq, Repr

/-- Source `login` (authController): presence check, email-format check,
lookup by email (an unknown email gets the generic `INVALID_CREDENTIALS`),
active-account check, then password comparison (`bcrypt.compare`, passed in
as the external collaborator `compare`). -/
def login (compare : String → String → Bool) (st : AppState)
    (email password : Option String) : LoginOutcome :=
  let e := email.getD ""
  let p := password.getD ""
  if e = "" || p = "" then .err .MISSING_FIELDS
  else if !(isValidEmail e) then .err .INVALID_EMAIL
  else
    match findUserByEmail st e with
    | none => .err .INVALID_CREDENTIALS
    | some user =>
      if !user.is_active then .err .ACCOUNT_DEACTIVATED
      else if !(compare p user.password_hash) then .err .INVALID_CREDENTIALS
      else .ok (sanitizeUser user) ⟨user.id, user.email, user.role⟩

/-- Source `updateUserById` (userController): admin-or-self authorization;
target must exist; a non-admin caller has every field other than the two
name fields deleted from the payload; email format and uniqueness checks
when a (truthy) email is provided; an admin deactivating themself is
rejected; then the model-level update (a thrown statement surfaces as
`SERVER_ERROR`, a vanished row as `UPDATE_FAILED`). -/
def updateUserById (st : AppState) (actor : AuthUser) (targetId : String)
    (updateData : UserUpdateData) (now : Int) :
    Except ErrorKind UserResponse × AppState :=
  let isAdmin := actor.role == Role.admin
  let isSelf := actor.userId == targetId
  if !isAdmin && !isSelf then (.error .FORBIDDEN, st)
  else
    match findUserById st targetId with
    | none => (.error .USER_NOT_FOUND, st)
    | some _ =>
      let upd := if isAdmin then updateData
                 else { first_name := updateData.first_name
                        last_name := updateData.last_name }
      if truthyS upd.email && !(isValidEmail (upd.email.getD "")) then
        (.error .INVALID_EMAIL, st)
      else if truthyS upd.email && emailExists st (upd.email.getD "") (some targetId) then
        (.error .EMAIL_EXISTS, st)
      else if isAdmin && isSelf && upd.is_active == some false then
        (.error .CANNOT_DEACTIVATE_SELF, st)
      else
        match updateUser st targetId upd now with
        | .error _ => (.error .SERVER_ERROR, st)
        | .ok (none, st2) => (.error .UPDATE_FAILED, st2)
        | .ok (some u2, st2) => (.ok (sanitizeUser u2), st2)

/-- Source `createRequest` (travelRequestController): required-field
presence (a JS truthiness test per field), date-range validity, budget
positivity, self-approval check, approver existence/active/role checks,
then the model-level INSERT; a thrown statement surfaces as `SERVER_ERROR`.
Notifications are fire-and-forget and do not touch the modelled state. -/
def createRequest (st : AppState) (actor : AuthUser)
    (requestData : CreateTravelRequestData) (shouldSubmit : Bool)
    (now : Int) (newId : String) : Except ErrorKind TravelRequest × AppState :=
  if !(truthyS requestData.approver_id) then (.error .MISSING_FIELD, st)
  else if !(truthyS requestData.destination) then (.error .MISSING_FIELD, st)
  else if !(truthyD requestData.departure_date) then (.error .MISSING_FIELD, st)
  else if !(truthyD requestData.return_date) then (.error .MISSING_FIELD, st)
  else if !(truthyS requestData.purpose) then (.error .MISSING_FIELD, st)
  else if !(truthyN requestData.estimated_budget) then (.error .MISSING_FIELD, st)
  else if !(isValidDateRange (requestData.departure_date.getD emptyDateStr)
      (requestData.return_date.getD emptyDateStr)) then
    (.error .INVALID_DATE_RANGE, st)
  else if requestData.estimated_budget.getD 0 ≤ 0 then
    (.error .INVALID_BUDGET, st)
  else if requestData.approver_id.getD "" = actor.userId then
    (.error .CANNOT_SELF_APPROVE, st)
  else
    match findUserById st (requestData.approver_id.getD "") with
    | none => (.error .APPROVER_NOT_FOUND, st)
    | some approver =>
      if !approver.is_active then (.error .APPROVER_INACTIVE, st)
      else if approver.role != Role.approver && approver.role != Role.admin then
        (.error .NOT_AN_APPROVER, st)
      else
        match createTravelRequest st actor.userId requestData (!shouldSubmit) now newId with
        | .error _ => (.error .SERVER_ERROR, st)
        | .ok (row, st2) => (.ok row, st2)

/-- Source `updateRequest` (travelRequestController): the request must
exist, belong to the caller and still be a draft; if either date field is
touched (truthy) the merged date pair is validated, each side falling back
to the stored date's string form (`updateData.x || existing.x.toString()`);
a provided budget must be positive; then the model-level conditional
UPDATE. -/
def updateRequest (st : AppState) (actor : AuthUser) (requestId : String)
    (updateData : UpdateTravelRequestData) (now : Int) :
    Except ErrorKind TravelRequest × AppState :=
  match findTravelRequestById st requestId with
  | none => (.error .REQUEST_NOT_FOUND, st)
  | some existingRequest =>
    if existingRequest.user_id != actor.userId then (.error .FORBIDDEN, st)
    else if existingRequest.status != TravelRequestStatus.draft then
      (.error .CANNOT_UPDATE_SUBMITTED, st)
    else
      let depDate := if truthyD updateData.departure_date
        then updateData.departure_date.getD emptyDateStr
        else storedDateStr existingRequest.departure_date
      let retDate := if truthyD updateData.return_date
        then updateData.return_date.getD emptyDateStr
        else storedDateStr existingRequest.return_date
      if (truthyD updateData.departure_date || truthyD updateData.return_date) &&
          !(isValidDateRange depDate retDate) then
        (.error .INVALID_DATE_RANGE, st)
      else if (match updateData.estimated_budget with
               | some b => decide (b ≤ 0)
               | none => false) then
        (.error .INVALID_BUDGET, st)
      else
        match updateTravelRequest st requestId updateData now with
        | .error _ => (.error .SERVER_ERROR, st)
        | .ok (none, st2) => (.error .UPDATE_FAILED, st2)
        | .ok (some r, st2) => (.ok r, st2)

/-- Source `submitRequest` (travelRequestController): ownership check, then
the model-level conditional UPDATE; a null result means the request was
missing or not a draft (`CANNOT_SUBMIT`). -/
def submitRequest (st : AppState) (actor : AuthUser) (requestId : String)
    (now : Int) : Except ErrorKind TravelRequest × AppState :=
  if !(isRequestOwner st requestId actor.userId) then (.error .FORBIDDEN, st)
  else
    match submitDraftRequest st requestId now with
    | (none, st2) => (.error .CANNOT_SUBMIT, st2)
    | (some r, st2) => (.ok r, st2)

/-- Source `approveRequest` (travelRequestController): assigned-approver or
admin check, then the model-level conditional UPDATE; a null result means
the request was missing or not pending (`CANNOT_APPROVE`). -/
def approveRequest (st : AppState) (actor : AuthUser) (requestId : String)
    (comments : Option String) (now : Int) :
    Except ErrorKind TravelRequest × AppState :=
  let isApprover := isRequestApprover st requestId actor.userId
  let isAdmin := actor.role == Role.admin
  if !isApprover && !isAdmin then (.error .FORBIDDEN, st)
  else
    match approveTravelRequest st requestId comments now with
    | (none, st2) => (.error .CANNOT_APPROVE, st2)
    | (some r, st2) => (.ok r, st2)

/-- Source `rejectRequest` (travelRequestController): comments are required
(absent, empty or whitespace-only comments fail first), then the
assigned-approver or admin check, then the model-level conditional UPDATE;
a null result means the request was missing or not pending
(`CANNOT_REJECT`). -/
def rejectRequest (st : AppState) (actor : AuthUser) (requestId : String)
    (comments : Option String) (now : Int) :
    Except ErrorKind TravelRequest × AppState :=
  let c := comments.getD ""
  if jsTrim c = "" then (.error .COMMENTS_REQUIRED, st)
  else
    let isApprover := isRequestApprover st requestId actor.userId
    let isAdmin := actor.role == Role.admin
    if !isApprover && !isAdmin then (.error .FORBIDDEN, st)
    else
      match rejectTravelRequest st requestId c now with
      | (none, st2) => (.error .CANNOT_REJECT, st2)
      | (some r, st2) => (.ok r, st2)

/-- Source `cancelRequest` (travelRequestController): ownership check, then
the model-level conditional UPDATE; a null result means the request was
missing or not pending (`CANNOT_CANCEL`). -/
def cancelRequest (st : AppState) (actor : AuthUser) (requestId : String)
    (now : Int) : Except ErrorKind TravelRequest × AppState :=
  if !(isRequestOwner st requestId actor.userId) then (.error .FORBIDDEN, st)
  else
    match cancelTravelRequest st requestId now with
    | (none, st2) => (.error .CANNOT_CANCEL, st2)
    | (some r, st2) => (.ok r, st2)

/-- Source `deleteRequest` (travelRequestController): ownership check, then
the model-level conditional DELETE; a false result means the request was
missing or not a draft (`CANNOT_DELETE`). -/
def deleteRequest (st : AppState) (actor : AuthUser) (requestId : String) :
    Except ErrorKind String × AppState :=
  if !(isRequestOwner st requestId actor.userId) then (.error .FORBIDDEN, st)
  else
    match deleteTravelRequest st requestId with
    | (false, st2) => (.error .CANNOT_DELETE, st2)
    | (true, st2) => (.ok requestId, st2)

/-- Source `getRequestStats` (travelRequestController): an admin sees
system-wide statistics, everyone else their own. -/
def getRequestStats (st : AppState) (actor : AuthUser) : TravelRequestStats :=
  if actor.role == Role.admin then countTravelRequests st none
  else countTravelRequests st (some actor.userId)

/-- Modelled from the spec: the creation validation order
"required-field presence → date-range validity → budget positivity →
self-approval check → approver existence/active/role check", each failing
check short-circuiting with its specific error kind, `none` when every
check passes.  Field presence is the source's JS truthiness test, so a
present-but-zero budget or a present-but-empty string counts as missing. -/
def specCreationError (st : AppState) (requesterId : String)
    (requestData : CreateTravelRequestData) : Option ErrorKind :=
  if !(truthyS requestData.approver_id && truthyS requestData.destination &&
      truthyD requestData.departure_date && truthyD requestData.return_date &&
      truthyS requestData.purpose && truthyN requestData.estimated_budget) then
    some .MISSING_FIELD
  else if !(isValidDateRange (requestData.departure_date.getD emptyDateStr)
      (requestData.return_date.getD emptyDateStr)) then
    some .INVALID_DATE_RANGE
  else if requestData.estimated_budget.getD 0 ≤ 0 then
    some .INVALID_BUDGET
  else if requestData.approver_id.getD "" = requesterId then
    some .CANNOT_SELF_APPROVE
  else
    match findUserById st (requestData.approver_id.getD "") with
    | none => some .APPROVER_NOT_FOUND
    | some approver =>
      if !approver.is_active then some .APPROVER_INACTIVE
      else if approver.role != Role.approver && approver.role != Role.admin then
        some .NOT_AN_APPROVER
      else none

/-- State-conflict error kinds: the "guard failed / resource not in the
expected state" family of the error-kind contract. -/
def isStateConflict (e : ErrorKind) : Bool :=
  e == .CANNOT_UPDATE_SUBMITTED || e == .CANNOT_SUBMIT || e == .CANNOT_APPROVE ||
  e == .CANNOT_REJECT || e == .CANNOT_CANCEL || e == .CANNOT_DELETE

/-- Terminal statuses of the request lifecycle. -/
def isTerminal (s : TravelRequestStatus) : Bool :=
  s == .approved || s == .rejected || s == .cancelled

/-- The no-self-approval invariant over a whole state. -/
def noSelfApproval (st : AppState) : Prop :=
  ∀ r ∈ st.requests, r.user_id ≠ r.approver_id

/-- One step of the application core: any state-changing controller
operation with arbitrary parameters. -/
inductive AppStep : AppState → AppState → Prop where
  | create (st : AppState) (actor : AuthUser) (d : CreateTravelRequestData)
      (shouldSubmit : Bool) (now : Int) (newId : String) :
      AppStep st (createRequest st actor d shouldSubmit now newId).2
  | update (st : AppState) (actor : AuthUser) (rid : String)
      (u : UpdateTravelRequestData) (now : Int) :
      AppStep st (updateRequest st actor rid u now).2
  | submit (st : AppState) (actor : AuthUser) (rid : String) (now : Int) :
      AppStep st (submitRequest st actor rid now).2
  | approve (st : AppState) (actor : AuthUser) (rid : String)
      (comments : Option String) (now : Int) :
      AppStep st (approveRequest st actor rid comments now).2
  | reject (st : AppState) (actor : AuthUser) (rid : String)
      (comments : Option String) (now : Int) :
      AppStep st (rejectRequest st actor rid comments now).2
  | cancel (st : AppState) (actor : AuthUser) (rid : String) (now : Int) :
      AppStep st (cancelRequest st actor rid now).2
  | delete (st : AppState) (actor : AuthUser) (rid : String) :
      AppStep st (deleteRequest st actor rid).2
  | userUpdate (st : AppState) (actor : AuthUser) (targetId : String)
      (u : UserUpdateData) (now : Int) :
      AppStep st (updateUserById st actor targetId u now).2

/-- Two rows of an id-unique table with the same id are the same row. -/
theorem eq_of_mem_of_id_eq {l : List TravelRequest}
    (hu : l.Pairwise (fun a b => a.id ≠ b.id)) {r x : TravelRequest}
    (hr : r ∈ l) (hx : x ∈ l) (hid : x.id = r.id) : x = r := by
  induction l with
  | nil => cases hr
  | cons a t ih =>
    rcases List.pairwise_cons.mp hu with ⟨ha, ht⟩
    rcases List.mem_cons.mp hr with hra | hrt
    · rcases List.mem_cons.mp hx with hxa | hxt
      · rw [hxa, hra]
      · rw [hra] at hid
        exact absurd hid.symm (ha x hxt)
    · rcases List.mem_cons.mp hx with hxa | hxt
      · rw [hxa] at hid
        exact absurd hid (ha r hrt)
      · exact ih ht hrt hxt

/-- Looking a member of an id-unique table up by its id finds exactly it. -/
theorem find?_id_of_unique {l : List TravelRequest}
    (hu : l.Pairwise (fun a b => a.id ≠ b.id)) {r : TravelRequest}
    (hr : r ∈ l) : l.find? (fun x => x.id == r.id) = some r := by
  induction l with
  | nil => cases hr
  | cons a t ih =>
    rcases List.pairwise_cons.mp hu with ⟨ha, ht⟩
    rcases List.mem_cons.mp hr with hra | hrt
    · subst hra
      simp [List.find?_cons]
    · have hne : a.id ≠ r.id := ha r hrt
      have : (a.id == r.id) = false := beq_eq_false_iff_ne.mpr hne
      simp [List.find?_cons, this, ih ht hrt]

/-- A guarded lookup by the id of a member that fails the guard finds
nothing (no other row can share the id). -/
theorem find?_guard_none {l : List TravelRequest}
    (hu : l.Pairwise (fun a b => a.id ≠ b.id)) {r : TravelRequest}
    (hr : r ∈ l) (cond : TravelRequest → Bool) (hc : cond r = false) :
    l.find? (fun x => x.id == r.id && cond x) = none := by
  refine List.find?_eq_none.mpr (fun x hx => ?_)
  intro hpx
  rcases Bool.and_eq_true_iff.mp hpx with ⟨hid, hcx⟩
  have hxr : x = r := eq_of_mem_of_id_eq hu hr hx (beq_iff_eq.mp hid)
  rw [hxr] at hcx
  exact absurd hcx (by simp [hc])

/-- A guarded lookup by the id of a member that passes the guard finds it. -/
theorem find?_guard_self {l : List TravelRequest}
    (hu : l.Pairwise (fun a b => a.id ≠ b.id)) {r : TravelRequest}
    (hr : r ∈ l) (cond : TravelRequest → Bool) (hc : cond r = true) :
    l.find? (fun x => x.id == r.id && cond x) = some r := by
  induction l with
  | nil => cases hr
  | cons a t ih =>
    rcases List.pairwise_cons.mp hu with ⟨ha, ht⟩
    rcases List.mem_cons.mp hr with hra | hrt
    · subst hra
      simp [List.find?_cons, hc]
    · have hne : a.id ≠ r.id := ha r hrt
      have hb : (a.id == r.id) = false := beq_eq_false_iff_ne.mpr hne
      simp [List.find?_cons, hb, ih ht hrt]

/-- A guarded existence test over an id-unique table whose only candidate
fails the guard is false. -/
theorem any_guard_false {l : List TravelRequest}
    (hu : l.Pairwise (fun a b => a.id ≠ b.id)) {r : TravelRequest}
    (hr : r ∈ l) (cond : TravelRequest → Bool) (hc : cond r = false) :
    l.any (fun x => x.id == r.id && cond x) = false := by
  rw [Bool.eq_false_iff]
  intro hany
  rcases List.any_eq_true.mp hany with ⟨x, hx, hpx⟩
  rcases Bool.and_eq_true_iff.mp hpx with ⟨hid, hcx⟩
  have hxr : x = r := eq_of_mem_of_id_eq hu hr hx (beq_iff_eq.mp hid)
  rw [hxr] at hcx
  exact absurd hcx (by simp [hc])

/-- Claim C6: a reject call whose comments are absent, empty, or
whitespace-only fails with `COMMENTS_REQUIRED` regardless of the actor, and
the whole stored state — in particular the request's status and fields — is
unchanged. -/
theorem reject_blank_comments_refused (st : AppState) (actor : AuthUser)
    (requestId : String) (comments : Option String) (now : Int)
    (h : jsTrim (comments.getD "") = "") :
    rejectRequest st actor requestId comments now =
      (Except.error ErrorKind.COMMENTS_REQUIRED, st) := by
  unfold rejectRequest
  simp [h]

/-- Witness for C6: rejecting with whitespace-only comments on a pending
request is refused and leaves the state alone. -/
theorem reject_blank_comments_refused_witness :
    jsTrim ((some "   ").getD "") = "" ∧
    rejectRequest ⟨[], []⟩ ⟨"u9", "b@x.com", Role.admin⟩ "r1" (some "   ") 3 =
      (Except.error ErrorKind.COMMENTS_REQUIRED, ⟨[], []⟩) :=
  ⟨by decide, reject_blank_comments_refused _ _ _ _ _ (by decide)⟩

/-- Derived boolean equality on statuses agrees with decidable equality. -/
theorem status_beq_eq_decide (x y : TravelRequestStatus) :
    (x == y) = decide (x = y) := by
  cases x <;> cases y <;> rfl

/-- Every travel-request list splits by status into the five classes. -/
theorem length_eq_sum_filter_status (l : List TravelRequest) :
    l.length =
      (l.filter (fun r => r.status == TravelRequestStatus.draft)).length +
      (l.filter (fun r => r.status == TravelRequestStatus.pending)).length +
      (l.filter (fun r => r.status == TravelRequestStatus.approved)).length +
      (l.filter (fun r => r.status == TravelRequestStatus.rejected)).length +
      (l.filter (fun r => r.status == TravelRequestStatus.cancelled)).length := by
  induction l with
  | nil => simp
  | cons a t ih =>
    cases h : a.status <;>
      simp [List.filter_cons, h, status_beq_eq_decide, ih] <;> omega

/-- Claim C10: for every store state and every optional user filter, the
statistics satisfy total = draft + pending + approved + rejected +
cancelled, since every request's status is one of exactly those five
values. -/
theorem countTravelRequests_total_partition (st : AppState)
    (userId : Option String) :
    (countTravelRequests st userId).total =
      (countTravelRequests st userId).draft +
      (countTravelRequests st userId).pending +
      (countTravelRequests st userId).approved +
      (countTravelRequests st userId).rejected +
      (countTravelRequests st userId).cancelled := by
  unfold countTravelRequests
  exact length_eq_sum_filter_status _

/-- A deactivated registered user, for the C4 counterexample. -/
def bobInactive : User :=
  ⟨"u2", "bob@x.com", "hash2", "Bob", "Stone", Role.user, false, 11, 12⟩

/-- A state whose only account is deactivated. -/
def stInactiveBob : AppState := ⟨[bobInactive], []⟩

/-- Claim C4 counterexample: login does leak whether an email is registered
when the registered account is deactivated.  With a password matching
nothing, the unregistered email gets `INVALID_CREDENTIALS` while the
registered (deactivated) email gets `ACCOUNT_DEACTIVATED`, because the
active-account check runs before the password comparison. -/
theorem login_leaks_deactivated_account :
    findUserByEmail stInactiveBob "alice@x.com" = none ∧
    findUserByEmail stInactiveBob "bob@x.com" = some bobInactive ∧
    login (fun _ _ => false) stInactiveBob (some "alice@x.com") (some "Secret12") =
      LoginOutcome.err ErrorKind.INVALID_CREDENTIALS ∧
    login (fun _ _ => false) stInactiveBob (some "bob@x.com") (some "Secret12") =
      LoginOutcome.err ErrorKind.ACCOUNT_DEACTIVATED ∧
    LoginOutcome.err ErrorKind.INVALID_CREDENTIALS ≠
      LoginOutcome.err ErrorKind.ACCOUNT_DEACTIVATED := by
  refine ⟨by decide, by decide, by decide, by decide, by decide⟩

/-- Claim C4 (amended): for an active registered account, login does not
reveal whether an email is registered — an unregistered email and a
registered email whose password does not match both yield
`INVALID_CREDENTIALS`, for every password and every state. -/
theorem login_no_account_enumeration
    (compare : String → String → Bool) (st : AppState)
    (email1 email2 pw : String) (u : User)
    (h1 : isValidEmail email1 = true) (h2 : isValidEmail email2 = true)
    (hpw : pw ≠ "")
    (hu1 : findUserByEmail st email1 = none)
    (hu2 : findUserByEmail st email2 = some u)
    (hact : u.is_active = true)
    (hcmp : compare pw u.password_hash = false) :
    login compare st (some email1) (some pw) =
      LoginOutcome.err ErrorKind.INVALID_CREDENTIALS ∧
    login compare st (some email2) (some pw) =
      LoginOutcome.err ErrorKind.INVALID_CREDENTIALS := by
  have he1 : email1 ≠ "" := by
    intro h
    rw [h] at h1
    exact absurd h1 (by decide)
  have he2 : email2 ≠ "" := by
    intro h
    rw [h] at h2
    exact absurd h2 (by decide)
  constructor <;> · unfold login; simp [h1, h2, he1, he2, hpw, hu1, hu2, hact, hcmp]

/-- An active registered user, for the C4 witness. -/
def bobActive : User :=
  ⟨"u3", "bob@y.com", "hash3", "Bob", "Stone", Role.user, true, 21, 22⟩

/-- A state whose only account is active. -/
def stActiveBob : AppState := ⟨[bobActive], []⟩

/-- Witness for the amended C4 at a concrete state, emails, password and
comparison function. -/
theorem login_no_account_enumeration_witness :
    isValidEmail "alice@y.com" = true ∧ isValidEmail "bob@y.com" = true ∧
    "Pass1234" ≠ "" ∧
    findUserByEmail stActiveBob "alice@y.com" = none ∧
    findUserByEmail stActiveBob "bob@y.com" = some bobActive ∧
    bobActive.is_active = true ∧
    (fun _ _ => (false : Bool)) "Pass1234" bobActive.password_hash = false ∧
    (login (fun _ _ => false) stActiveBob (some "alice@y.com") (some "Pass1234") =
      LoginOutcome.err ErrorKind.INVALID_CREDENTIALS ∧
    login (fun _ _ => false) stActiveBob (some "bob@y.com") (some "Pass1234") =
      LoginOutcome.err ErrorKind.INVALID_CREDENTIALS) :=
  ⟨by decide, by decide, by decide, by decide, by decide, by decide, rfl,
    login_no_account_enumeration (fun _ _ => false) stActiveBob
      "alice@y.com" "bob@y.com" "Pass1234" bobActive (by decide) (by decide)
      (by decide) (by decide) (by decide) (by decide) rfl⟩

/-- An active non-admin user, for the C5 counterexample. -/
def aliceUser : User :=
  ⟨"u1", "alice@z.com", "hash1", "Alice", "Lee", Role.user, true, 1, 2⟩

/-- A state whose only user is the non-admin `aliceUser`. -/
def stAlice : AppState := ⟨[aliceUser], []⟩

/-- Claim C5 counterexample: a non-admin updating their own record with
`is_active = false` is NOT rejected with `CANNOT_DEACTIVATE_SELF`; the
non-admin branch silently strips every non-name field from the payload and
the call succeeds (the stored record is nevertheless unchanged). -/
theorem updateUserById_nonadmin_self_deactivation_not_refused :
    updateUserById stAlice ⟨"u1", "alice@z.com", Role.user⟩ "u1"
        { is_active := some false } 5 =
      (Except.ok (sanitizeUser aliceUser), stAlice) ∧
    (updateUserById stAlice ⟨"u1", "alice@z.com", Role.user⟩ "u1"
        { is_active := some false } 5).1 ≠
      Except.error ErrorKind.CANNOT_DEACTIVATE_SELF := by
  refine ⟨by decide, by decide⟩

/-- A model-level user update whose patch touches neither email, role nor
activity leaves every user's (id, email, role, is_active) projection
unchanged. -/
theorem updateUser_name_only_proj (st : AppState) (userId : String)
    (u : UserUpdateData) (now : Int)
    (hMail : u.email = none) (hRole : u.role = none)
    (hAct : u.is_active = none) (o : Option User) (st2 : AppState)
    (h : updateUser st userId u now = Except.ok (o, st2)) :
    st2.users.map (fun x => (x.id, x.email, x.role, x.is_active)) =
      st.users.map (fun x => (x.id, x.email, x.role, x.is_active)) := by
  unfold updateUser at h
  by_cases hf : hasUserUpdateFields u = true
  · simp only [hf, if_pos rfl] at h
    by_cases hdup : (st.users.map (fun x =>
        if x.id == userId then userPatch u now x else x)).any (fun x =>
          (x.id == userId) && (st.users.map (fun x =>
            if x.id == userId then userPatch u now x else x)).any
              (fun y => y.id != x.id && y.email == x.email)) = true
    · rw [if_pos hdup] at h
      cases h
    · rw [if_neg hdup] at h
      have hst2 : st2 = { st with users := st.users.map (fun x =>
          if x.id == userId then userPatch u now x else x) } := by
        have := congrArg Prod.snd (Except.ok.inj h)
        exact this.symm
      rw [hst2]
      show (st.users.map _).map _ = _
      rw [List.map_map]
      refine List.map_congr_left (fun x _ => ?_)
      by_cases hx : x.id = userId <;>
        simp [hx, userPatch, hMail, hRole, hAct]
  · rw [if_neg hf] at h
    have hst2 : st2 = st := by
      have := congrArg Prod.snd (Except.ok.inj h)
      exact this.symm
    rw [hst2]

/-- Claim C5 (amended): an admin updating their own record with
`is_active = false` is rejected with `CANNOT_DEACTIVATE_SELF` and the state
is unchanged (provided a supplied email passes its earlier checks, which
run first); a non-admin actor never changes any stored `is_active` (nor
email, role or id) through this endpoint, because every non-name field is
stripped from their payload. -/
theorem updateUserById_self_deactivation (st : AppState) (actor : AuthUser)
    (targetId : String) (upd : UserUpdateData) (now : Int) :
    (actor.role = Role.admin → actor.userId = targetId →
      upd.is_active = some false →
      (∃ u, findUserById st targetId = some u) →
      (truthyS upd.email = true → isValidEmail (upd.email.getD "") = true) →
      (truthyS upd.email = true →
        emailExists st (upd.email.getD "") (some targetId) = false) →
      updateUserById st actor targetId upd now =
        (Except.error ErrorKind.CANNOT_DEACTIVATE_SELF, st)) ∧
    (actor.role ≠ Role.admin →
      ((updateUserById st actor targetId upd now).2.users.map
          (fun u => (u.id, u.email, u.role, u.is_active))) =
        st.users.map (fun u => (u.id, u.email, u.role, u.is_active))) := by
  constructor
  · intro hrole hself hdeact ⟨u, hu⟩ hvalid hconflict
    have hadm : (actor.role == Role.admin) = true := by
      rw [hrole]; rfl
    have hslf : (actor.userId == targetId) = true := beq_iff_eq.mpr hself
    unfold updateUserById
    rw [hu]
    simp only [hadm, hslf, Bool.and_self, Bool.not_true, Bool.false_and]
    cases he : truthyS upd.email with
    | false => simp [he, hdeact]
    | true => simp [he, hvalid he, hconflict he, hdeact]
  · intro hrole
    have hadm : (actor.role == Role.admin) = false :=
      beq_eq_false_iff_ne.mpr hrole
    unfold updateUserById
    rw [hadm]
    by_cases hslf : (actor.userId == targetId) = true
    · rw [hslf]
      simp only [Bool.not_false, Bool.not_true, Bool.true_and, Bool.and_false,
        Bool.false_and, Bool.if_false_left, Bool.and_true]
      cases hu : findUserById st targetId with
      | none => simp
      | some u0 =>
        simp only [truthyS, Bool.false_and, Bool.if_false_left,
          Bool.not_false, Bool.true_and, if_false]
        cases hm : updateUser st targetId
            { first_name := upd.first_name,
              last_name := upd.last_name } now with
        | error e => simp [hm]
        | ok p =>
          have hproj := updateUser_name_only_proj st targetId
            { first_name := upd.first_name,
              last_name := upd.last_name } now rfl rfl rfl p.1 p.2
            (by rw [hm])
          cases hp : p.1 with
          | none =>
            have : p = (none, p.2) := by rw [← hp]
            rw [this] at hm
            simp [hm, hproj]
          | some u2 =>
            have : p = (some u2, p.2) := by rw [← hp]
            rw [this] at hm
            simp [hm, hproj]
    · have hslf2 : (actor.userId == targetId) = false := by
        rw [Bool.not_eq_true] at hslf
        exact hslf
      rw [hslf2]
      simp

/-- An admin user, for the C5 witness. -/
def adminUser : User :=
  ⟨"a1", "root@z.com", "hashA", "Ada", "Min", Role.admin, true, 3, 4⟩

/-- A state whose only user is the admin `adminUser`. -/
def stAdmin : AppState := ⟨[adminUser], []⟩

/-- Witness for the amended C5: an admin self-deactivation is rejected at a
concrete state, and the state is unchanged. -/
theorem updateUserById_self_deactivation_witness :
    updateUserById stAdmin ⟨"a1", "root@z.com", Role.admin⟩ "a1"
        { is_active := some false } 7 =
      (Except.error ErrorKind.CANNOT_DEACTIVATE_SELF, stAdmin) :=
  (updateUserById_self_deactivation stAdmin ⟨"a1", "root@z.com", Role.admin⟩
      "a1" { is_active := some false } 7).1 rfl rfl rfl
    ⟨adminUser, by decide⟩ (fun h => absurd h (by decide))
    (fun h => absurd h (by decide))

/-- Claim C9: deleting a request by its owner succeeds exactly when it is a
draft: a draft delete removes it from the store (a lookup by id then finds
nothing), while a delete on any other status fails with `CANNOT_DELETE`
and the state, in particular the record, is untouched. -/
theorem deleteRequest_draft_only (st : AppState) (actor : AuthUser)
    (r : TravelRequest) (hu : UniqueReqIds st) (hr : r ∈ st.requests)
    (hown : actor.userId = r.user_id) :
    (r.status = TravelRequestStatus.draft →
      deleteRequest st actor r.id =
        (Except.ok r.id,
          { st with requests := st.requests.filter (fun x =>
              !(x.id == r.id && x.status == TravelRequestStatus.draft)) }) ∧
      findTravelRequestById
        { st with requests := st.requests.filter (fun x =>
            !(x.id == r.id && x.status == TravelRequestStatus.draft)) } r.id =
        none) ∧
    (r.status ≠ TravelRequestStatus.draft →
      deleteRequest st actor r.id = (Except.error ErrorKind.CANNOT_DELETE, st) ∧
      findTravelRequestById st r.id = some r) := by
  have hownb : isRequestOwner st r.id actor.userId = true := by
    unfold isRequestOwner
    exact List.any_eq_true.mpr ⟨r, hr, by simp [hown]⟩
  constructor
  · intro hd
    have hany : st.requests.any (fun x =>
        x.id == r.id && x.status == TravelRequestStatus.draft) = true :=
      List.any_eq_true.mpr ⟨r, hr, by simp [hd]⟩
    constructor
    · unfold deleteRequest deleteTravelRequest
      simp only [hownb, Bool.not_true, if_false, hany, if_pos rfl]
      simp
    · unfold findTravelRequestById
      refine List.find?_eq_none.mpr (fun x hx => ?_)
      rcases List.mem_filter.mp hx with ⟨hxl, hxp⟩
      intro hxid
      have hxr : x = r := eq_of_mem_of_id_eq hu hr hxl (beq_iff_eq.mp hxid)
      rw [hxr] at hxp
      simp [hd] at hxp
  · intro hnd
    have hcond : (r.status == TravelRequestStatus.draft) = false :=
      beq_eq_false_iff_ne.mpr hnd
    have hany : st.requests.any (fun x =>
        x.id == r.id && x.status == TravelRequestStatus.draft) = false :=
      any_guard_false hu hr _ hcond
    refine ⟨?_, find?_id_of_unique hu hr⟩
    unfold deleteRequest deleteTravelRequest
    simp only [hownb, Bool.not_true, if_false, hany]
    simp

/-- A draft request of `aliceUser` approved by `adminUser`, for C9/C7
witnesses. -/
def draftReq : TravelRequest :=
  { id := "r1", user_id := "u1", approver_id := "a1",
    destination := "Paris", departure_date := 10, return_date := 20,
    purpose := "conf", estimated_budget := 2500,
    transportation_mode := none, accommodation_details := none,
    additional_notes := none, status := TravelRequestStatus.draft,
    approval_comments := none, submitted_at := none,
    approved_rejected_at := none, created_at := 5, updated_at := 5 }

/-- A state holding the single draft `draftReq`. -/
def stDraft : AppState := ⟨[aliceUser, adminUser], [draftReq]⟩

/-- Witness for C9: the owner deletes the concrete draft, and the store no
longer returns it. -/
theorem deleteRequest_draft_only_witness :
    draftReq.status = TravelRequestStatus.draft ∧
    (deleteRequest stDraft ⟨"u1", "alice@z.com", Role.user⟩ draftReq.id).1 =
      Except.ok draftReq.id ∧
    findTravelRequestById
      (deleteRequest stDraft ⟨"u1", "alice@z.com", Role.user⟩ draftReq.id).2
      draftReq.id = none := by
  have h := (deleteRequest_draft_only stDraft ⟨"u1", "alice@z.com", Role.user⟩
    draftReq (by simp [UniqueReqIds, stDraft]) (by decide) rfl).1 rfl
  exact ⟨rfl, by rw [h.1], by rw [h.1]; exact h.2⟩

/-- Claim C7: submitting a draft by its owner transitions it to `pending`
and stamps `submitted_at`; immediately re-submitting fails with
`CANNOT_SUBMIT`, the state is untouched by the second call, and the stored
request is still the pending one with its original `submitted_at`. -/
theorem submit_then_resubmit (st : AppState) (actor : AuthUser)
    (r : TravelRequest) (now1 now2 : Int) (hu : UniqueReqIds st)
    (hr : r ∈ st.requests) (hd : r.status = TravelRequestStatus.draft)
    (hown : actor.userId = r.user_id) :
    ∃ st1,
      submitRequest st actor r.id now1 =
        (Except.ok { r with status := TravelRequestStatus.pending,
                            submitted_at := some now1,
                            updated_at := now1 }, st1) ∧
      findTravelRequestById st1 r.id =
        some { r with status := TravelRequestStatus.pending,
                      submitted_at := some now1,
                      updated_at := now1 } ∧
      submitRequest st1 actor r.id now2 =
        (Except.error ErrorKind.CANNOT_SUBMIT, st1) := by
  have hownb : isRequestOwner st r.id actor.userId = true := by
    unfold isRequestOwner
    exact List.any_eq_true.mpr ⟨r, hr, by simp [hown]⟩
  have hfind : st.requests.find? (fun x =>
      x.id == r.id && x.status == TravelRequestStatus.draft) = some r :=
    find?_guard_self hu hr _ (by simp [hd])
  refine ⟨{ st with requests := st.requests.map (fun x =>
      if x.id == r.id && x.status == TravelRequestStatus.draft
      then { x with status := TravelRequestStatus.pending,
                    submitted_at := some now1, updated_at := now1 }
      else x) }, ?_, ?_, ?_⟩
  · unfold submitRequest submitDraftRequest
    simp only [hownb, Bool.not_true, if_false, hfind]
    simp
  · unfold findTravelRequestById
    rw [List.find?_map]
    have hcomp : ((fun x : TravelRequest => x.id == r.id) ∘ (fun x =>
        if x.id == r.id && x.status == TravelRequestStatus.draft
        then { x with status := TravelRequestStatus.pending,
                      submitted_at := some now1, updated_at := now1 }
        else x)) = fun x : TravelRequest => x.id == r.id := by
      funext x
      by_cases hx : (x.id == r.id && x.status == TravelRequestStatus.draft) = true <;>
        simp [Function.comp, hx]
    rw [hcomp, find?_id_of_unique hu hr]
    simp [hd]
  · have hown2 : isRequestOwner { st with requests := st.requests.map (fun x =>
        if x.id == r.id && x.status == TravelRequestStatus.draft
        then { x with status := TravelRequestStatus.pending,
                      submitted_at := some now1, updated_at := now1 }
        else x) } r.id actor.userId = true := by
      unfold isRequestOwner
      refine List.any_eq_true.mpr ⟨_, List.mem_map_of_mem _ hr, ?_⟩
      simp [hd, hown]
    have hfind2 : (st.requests.map (fun x =>
        if x.id == r.id && x.status == TravelRequestStatus.draft
        then { x with status := TravelRequestStatus.pending,
                      submitted_at := some now1, updated_at := now1 }
        else x)).find? (fun x =>
          x.id == r.id && x.status == TravelRequestStatus.draft) = none := by
      refine List.find?_eq_none.mpr (fun x hx => ?_)
      rcases List.mem_map.mp hx with ⟨x0, hx0, rfl⟩
      by_cases hid : x0.id = r.id
      · have hx0r : x0 = r := eq_of_mem_of_id_eq hu hr hx0 hid
        subst hx0r
        simp [hd]
      · intro hcontra
        rcases Bool.and_eq_true_iff.mp hcontra with ⟨hid2, _⟩
        have : (if x0.id == r.id && x0.status == TravelRequestStatus.draft
            then { x0 with status := TravelRequestStatus.pending,
                           submitted_at := some now1, updated_at := now1 }
            else x0).id = x0.id := by
          by_cases hx0 : (x0.id == r.id && x0.status == TravelRequestStatus.draft) = true <;>
            simp [hx0]
        rw [this] at hid2
        exact hid (beq_iff_eq.mp hid2)
    unfold submitRequest submitDraftRequest
    simp only [hown2, Bool.not_true, if_false, hfind2]
    simp

/-- Witness for C7 at a concrete draft: submit succeeds, the stored row is
pending with the submission timestamp, and a second submit fails. -/
theorem submit_then_resubmit_witness :
    ∃ st1,
      submitRequest stDraft ⟨"u1", "alice@z.com", Role.user⟩ draftReq.id 6 =
        (Except.ok { draftReq with status := TravelRequestStatus.pending,
                                   submitted_at := some 6,
                                   updated_at := 6 }, st1) ∧
      findTravelRequestById st1 draftReq.id =
        some { draftReq with status := TravelRequestStatus.pending,
                             submitted_at := some 6, updated_at := 6 } ∧
      submitRequest st1 ⟨"u1", "alice@z.com", Role.user⟩ draftReq.id 7 =
        (Except.error ErrorKind.CANNOT_SUBMIT, st1) :=
  submit_then_resubmit stDraft ⟨"u1", "alice@z.com", Role.user⟩ draftReq 6 7
    (by simp [UniqueReqIds, stDraft]) (by decide) rfl rfl

/-- An approved (terminal) request, for the C3 counterexample and witness. -/
def approvedReq : TravelRequest :=
  { draftReq with id := "r2", status := TravelRequestStatus.approved,
                  submitted_at := some 6, approved_rejected_at := some 7,
                  approval_comments := some "ok" }

/-- A state holding the single approved `approvedReq`. -/
def stApproved : AppState := ⟨[aliceUser, adminUser], [approvedReq]⟩

/-- Claim C3 counterexample: an operation on a terminal request can be
refused with an error that is neither a state-conflict nor forbidden —
rejecting an approved request with blank comments fails with the
validation error `COMMENTS_REQUIRED` (the record is still unchanged). -/
theorem terminal_reject_blank_comments_validation :
    approvedReq ∈ stApproved.requests ∧
    isTerminal approvedReq.status = true ∧
    rejectRequest stApproved ⟨"a1", "root@z.com", Role.admin⟩ approvedReq.id
        (some "") 9 =
      (Except.error ErrorKind.COMMENTS_REQUIRED, stApproved) ∧
    isStateConflict ErrorKind.COMMENTS_REQUIRED = false ∧
    ErrorKind.COMMENTS_REQUIRED ≠ ErrorKind.FORBIDDEN := by
  refine ⟨by decide, by decide, by decide, by decide, by decide⟩

/-- Claim C3 (amended): once a request is in a terminal status (approved,
rejected or cancelled), every operation on it — update, submit, approve,
reject, cancel, delete — is refused with a state-conflict error, a
forbidden error, or (only for reject with blank comments) the
`COMMENTS_REQUIRED` validation error; in every case the whole state,
in particular the stored record, is unchanged, so no operation ever moves
a request out of a terminal state. -/
theorem terminal_state_frozen (st : AppState) (r : TravelRequest)
    (hu : UniqueReqIds st) (hr : r ∈ st.requests)
    (ht : isTerminal r.status = true) :
    (∀ actor u now, ∃ e, updateRequest st actor r.id u now =
        (Except.error e, st) ∧
      (isStateConflict e = true ∨ e = ErrorKind.FORBIDDEN)) ∧
    (∀ actor now, ∃ e, submitRequest st actor r.id now =
        (Except.error e, st) ∧
      (isStateConflict e = true ∨ e = ErrorKind.FORBIDDEN)) ∧
    (∀ actor comments now, ∃ e, approveRequest st actor r.id comments now =
        (Except.error e, st) ∧
      (isStateConflict e = true ∨ e = ErrorKind.FORBIDDEN)) ∧
    (∀ actor comments now, ∃ e, rejectRequest st actor r.id comments now =
        (Except.error e, st) ∧
      (isStateConflict e = true ∨ e = ErrorKind.FORBIDDEN ∨
        e = ErrorKind.COMMENTS_REQUIRED)) ∧
    (∀ actor now, ∃ e, cancelRequest st actor r.id now =
        (Except.error e, st) ∧
      (isStateConflict e = true ∨ e = ErrorKind.FORBIDDEN)) ∧
    (∀ actor, ∃ e, deleteRequest st actor r.id =
        (Except.error e, st) ∧
      (isStateConflict e = true ∨ e = ErrorKind.FORBIDDEN)) := by
  have hnd : (r.status == TravelRequestStatus.draft) = false := by
    cases hs : r.status <;> rw [hs] at ht <;>
      first | (exact absurd ht (by decide)) | decide
  have hnp : (r.status == TravelRequestStatus.pending) = false := by
    cases hs : r.status <;> rw [hs] at ht <;>
      first | (exact absurd ht (by decide)) | decide
  have hfid : findTravelRequestById st r.id = some r :=
    find?_id_of_unique hu hr
  have hfd : st.requests.find? (fun x =>
      x.id == r.id && x.status == TravelRequestStatus.draft) = none :=
    find?_guard_none hu hr _ hnd
  have hfp : st.requests.find? (fun x =>
      x.id == r.id && x.status == TravelRequestStatus.pending) = none :=
    find?_guard_none hu hr _ hnp
  have had : st.requests.any (fun x =>
      x.id == r.id && x.status == TravelRequestStatus.draft) = false :=
    any_guard_false hu hr _ hnd
  refine ⟨?_, ?_, ?_, ?_, ?_, ?_⟩
  · intro actor u now
    cases hfo : r.user_id != actor.userId with
    | true =>
      exact ⟨ErrorKind.FORBIDDEN, by simp [updateRequest, hfid, hfo], Or.inr rfl⟩
    | false =>
      refine ⟨ErrorKind.CANNOT_UPDATE_SUBMITTED, ?_, Or.inl (by decide)⟩
      simp [updateRequest, hfid, hfo, hnd]
      intro hcontra
      rw [hcontra] at hnd
      exact absurd hnd (by decide)
  · intro actor now
    cases howb : isRequestOwner st r.id actor.userId with
    | false =>
      exact ⟨ErrorKind.FORBIDDEN, by simp [submitRequest, howb], Or.inr rfl⟩
    | true =>
      refine ⟨ErrorKind.CANNOT_SUBMIT, ?_, Or.inl (by decide)⟩
      simp [submitRequest, submitDraftRequest, howb, hfd]
  · intro actor comments now
    cases hok : !(isRequestApprover st r.id actor.userId) &&
        !(actor.role == Role.admin) with
    | true =>
      exact ⟨ErrorKind.FORBIDDEN, by simp [approveRequest, hok], Or.inr rfl⟩
    | false =>
      refine ⟨ErrorKind.CANNOT_APPROVE, ?_, Or.inl (by decide)⟩
      simp [approveRequest, approveTravelRequest, hok, hfp]
  · intro actor comments now
    by_cases hc : jsTrim (comments.getD "") = ""
    · exact ⟨ErrorKind.COMMENTS_REQUIRED, by simp [rejectRequest, hc],
        Or.inr (Or.inr rfl)⟩
    · cases hok : !(isRequestApprover st r.id actor.userId) &&
          !(actor.role == Role.admin) with
      | true =>
        exact ⟨ErrorKind.FORBIDDEN, by simp [rejectRequest, hc, hok],
          Or.inr (Or.inl rfl)⟩
      | false =>
        refine ⟨ErrorKind.CANNOT_REJECT, ?_, Or.inl (by decide)⟩
        simp [rejectRequest, rejectTravelRequest, hc, hok, hfp]
  · intro actor now
    cases howb : isRequestOwner st r.id actor.userId with
    | false =>
      exact ⟨ErrorKind.FORBIDDEN, by simp [cancelRequest, howb], Or.inr rfl⟩
    | true =>
      refine ⟨ErrorKind.CANNOT_CANCEL, ?_, Or.inl (by decide)⟩
      simp [cancelRequest, cancelTravelRequest, howb, hfp]
  · intro actor
    cases howb : isRequestOwner st r.id actor.userId with
    | false =>
      exact ⟨ErrorKind.FORBIDDEN, by simp [deleteRequest, howb], Or.inr rfl⟩
    | true =>
      refine ⟨ErrorKind.CANNOT_DELETE, ?_, Or.inl (by decide)⟩
      simp [deleteRequest, deleteTravelRequest, howb, had]

/-- Witness for the amended C3: submitting the concrete approved request
fails with a state-conflict error and the state is unchanged. -/
theorem terminal_state_frozen_witness :
    ∃ e, submitRequest stApproved ⟨"u1", "alice@z.com", Role.user⟩
        approvedReq.id 8 = (Except.error e, stApproved) ∧
      (isStateConflict e = true ∨ e = ErrorKind.FORBIDDEN) :=
  (terminal_state_frozen stApproved approvedReq
      (by simp [UniqueReqIds, stApproved]) (by decide) (by decide)).2.1
    ⟨"u1", "alice@z.com", Role.user⟩ 8

/-- Claim C8: an owner's update of a draft whose merged date pair — each
side taken from the patch when that field is truthy, otherwise from the
stored record — has the return date strictly before the departure date
fails with `INVALID_DATE_RANGE`, and the whole state (in particular the
stored dates) is unchanged. -/
theorem update_invalid_merged_dates (st : AppState) (actor : AuthUser)
    (r : TravelRequest) (u : UpdateTravelRequestData) (now : Int)
    (hu : UniqueReqIds st) (hr : r ∈ st.requests)
    (hd : r.status = TravelRequestStatus.draft)
    (hown : actor.userId = r.user_id)
    (hwf : r.departure_date ≤ r.return_date)
    (a b : Int)
    (hdep : parseDate (if truthyD u.departure_date
        then u.departure_date.getD emptyDateStr
        else storedDateStr r.departure_date) = some a)
    (hret : parseDate (if truthyD u.return_date
        then u.return_date.getD emptyDateStr
        else storedDateStr r.return_date) = some b)
    (hlt : b < a) :
    updateRequest st actor r.id u now =
      (Except.error ErrorKind.INVALID_DATE_RANGE, st) := by
  have hfid : findTravelRequestById st r.id = some r :=
    find?_id_of_unique hu hr
  have hfo : (r.user_id != actor.userId) = false := by
    rw [hown]
    simp
  have hds : (r.status != TravelRequestStatus.draft) = false := by
    rw [hd]
    decide
  have htouch : (truthyD u.departure_date || truthyD u.return_date) = true := by
    cases h1 : truthyD u.departure_date with
    | true => rfl
    | false =>
      cases h2 : truthyD u.return_date with
      | true => rfl
      | false =>
        rw [h1] at hdep
        rw [h2] at hret
        simp only [if_false, Bool.false_eq_true, if_neg] at hdep hret
        have ha : a = r.departure_date := by
          have := hdep
          simp [storedDateStr, parseDate] at this
          exact this.symm
        have hb : b = r.return_date := by
          have := hret
          simp [storedDateStr, parseDate] at this
          exact this.symm
        rw [ha, hb] at hlt
        exact absurd hwf (by omega)
  have hinvalid : isValidDateRange
      (if truthyD u.departure_date then u.departure_date.getD emptyDateStr
        else storedDateStr r.departure_date)
      (if truthyD u.return_date then u.return_date.getD emptyDateStr
        else storedDateStr r.return_date) = false := by
    unfold isValidDateRange
    rw [hdep, hret]
    simp
    omega
  unfold updateRequest
  rw [hfid]
  simp only [hfo, Bool.false_eq_true, if_false, hds, if_neg]
  simp [htouch, hinvalid]

/-- Witness for C8: patching the concrete draft (dates 10..20) with a
return date of 5 fails with `INVALID_DATE_RANGE` and leaves the state
alone. -/
theorem update_invalid_merged_dates_witness :
    updateRequest stDraft ⟨"u1", "alice@z.com", Role.user⟩ draftReq.id
        { return_date := some ⟨true, some 5⟩ } 8 =
      (Except.error ErrorKind.INVALID_DATE_RANGE, stDraft) :=
  update_invalid_merged_dates stDraft ⟨"u1", "alice@z.com", Role.user⟩
    draftReq { return_date := some ⟨true, some 5⟩ } 8
    (by simp [UniqueReqIds, stDraft]) (by decide) rfl rfl (by decide)
    10 5 (by decide) (by decide) (by decide)

/-- Claim C1 (amended): whenever the spec-side ordered validation
`specCreationError` reports an error kind, `createRequest` fails with
exactly that kind and leaves the state unchanged — the checks run in the
order required-field presence, date-range validity, budget positivity,
self-approval, approver existence/active/role, and the first failing check
short-circuits.  Presence is the source's JS truthiness test, so a present
zero budget short-circuits as `MISSING_FIELD`, while a present negative
budget reaches the positivity check and fails as `INVALID_BUDGET`. -/
theorem createRequest_validation_order (st : AppState) (actor : AuthUser)
    (d : CreateTravelRequestData) (shouldSubmit : Bool) (now : Int)
    (newId : String) (e : ErrorKind)
    (h : specCreationError st actor.userId d = some e) :
    createRequest st actor d shouldSubmit now newId = (Except.error e, st) := by
  by_cases hall : (truthyS d.approver_id && (truthyS d.destination &&
      (truthyD d.departure_date && (truthyD d.return_date &&
      (truthyS d.purpose && truthyN d.estimated_budget))))) = true
  · have h6 := hall
    simp only [Bool.and_eq_true] at h6
    obtain ⟨h1, h2, h3, h4, h5, h6⟩ := h6
    unfold specCreationError at h
    unfold createRequest
    simp only [h1, h2, h3, h4, h5, h6, Bool.and_self, Bool.not_true,
      Bool.false_eq_true, if_false, Bool.and_true, Bool.true_and] at h ⊢
    by_cases hv : isValidDateRange (d.departure_date.getD emptyDateStr)
        (d.return_date.getD emptyDateStr) = true
    · simp only [hv, Bool.not_true, Bool.false_eq_true, if_false] at h ⊢
      by_cases hb : d.estimated_budget.getD 0 ≤ 0
      · rw [if_pos hb] at h ⊢
        simp at h
        rw [h]
      · rw [if_neg hb] at h ⊢
        by_cases hs : d.approver_id.getD "" = actor.userId
        · rw [if_pos hs] at h ⊢
          simp at h
          rw [h]
        · rw [if_neg hs] at h ⊢
          cases hap : findUserById st (d.approver_id.getD "") with
          | none =>
            rw [hap] at h
            simp at h
            subst h
            rfl
          | some approver =>
            rw [hap] at h
            by_cases hact : approver.is_active = true
            · by_cases hra : approver.role = Role.approver
              · simp [hact, hra] at h
              · by_cases hrb : approver.role = Role.admin
                · simp [hact, hrb] at h
                · simp [hact, hra, hrb] at h
                  subst h
                  simp [hact, hra, hrb]
            · have hact2 : approver.is_active = false := by
                cases hx : approver.is_active
                · rfl
                · exact absurd hx hact
              simp [hact2] at h
              subst h
              simp [hact2]
    · have hv2 : isValidDateRange (d.departure_date.getD emptyDateStr)
          (d.return_date.getD emptyDateStr) = false := by
        rw [Bool.not_eq_true] at hv
        exact hv
      simp only [hv2, Bool.not_false, if_pos] at h ⊢
      simp at h
      rw [h]
  · have hallf : (truthyS d.approver_id && (truthyS d.destination &&
        (truthyD d.departure_date && (truthyD d.return_date &&
        (truthyS d.purpose && truthyN d.estimated_budget))))) = false := by
      rw [Bool.not_eq_true] at hall
      exact hall
    unfold specCreationError at h
    rw [show (truthyS d.approver_id && truthyS d.destination &&
        truthyD d.departure_date && truthyD d.return_date &&
        truthyS d.purpose && truthyN d.estimated_budget) = false by
      rw [← hallf]
      cases truthyS d.approver_id <;> cases truthyS d.destination <;>
        cases truthyD d.departure_date <;> cases truthyD d.return_date <;>
        cases truthyS d.purpose <;> cases truthyN d.estimated_budget <;> rfl] at h
    simp at h
    rw [← h]
    cases h1 : truthyS d.approver_id with
    | false => simp [createRequest, h1]
    | true =>
      cases h2 : truthyS d.destination with
      | false => simp [createRequest, h1, h2]
      | true =>
        cases h3 : truthyD d.departure_date with
        | false => simp [createRequest, h1, h2, h3]
        | true =>
          cases h4 : truthyD d.return_date with
          | false => simp [createRequest, h1, h2, h3, h4]
          | true =>
            cases h5 : truthyS d.purpose with
            | false => simp [createRequest, h1, h2, h3, h4, h5]
            | true =>
              cases h6 : truthyN d.estimated_budget with
              | false => simp [createRequest, h1, h2, h3, h4, h5, h6]
              | true =>
                rw [h1, h2, h3, h4, h5, h6] at hallf
                exact absurd hallf (by decide)

/-- A creation payload that is valid except for a zero budget, for the C1
counterexample. -/
def zeroBudgetData : CreateTravelRequestData :=
  { approver_id := some "a1", destination := some "Paris",
    departure_date := some ⟨true, some 10⟩,
    return_date := some ⟨true, some 20⟩,
    purpose := some "conf", estimated_budget := some 0 }

/-- Claim C1 counterexample: an input whose `estimated_budget` is present
but zero (hence not positive) fails with `MISSING_FIELD`, not
`INVALID_BUDGET`, because the required-field presence check is a JS
truthiness test and `0` is falsy. -/
theorem create_zero_budget_reported_missing :
    zeroBudgetData.estimated_budget = some 0 ∧
    createRequest stDraft ⟨"u1", "alice@z.com", Role.user⟩ zeroBudgetData
        false 9 "r9" =
      (Except.error ErrorKind.MISSING_FIELD, stDraft) ∧
    ErrorKind.MISSING_FIELD ≠ ErrorKind.INVALID_BUDGET := by
  refine ⟨rfl, by decide, by decide⟩

/-- A creation payload with a present, negative budget, for the C1
witness. -/
def negBudgetData : CreateTravelRequestData :=
  { zeroBudgetData with estimated_budget := some (-5) }

/-- Witness for the amended C1: a present negative budget passes presence,
passes the date check, and fails as `INVALID_BUDGET`. -/
theorem createRequest_validation_order_witness :
    specCreationError stDraft "u1" negBudgetData =
      some ErrorKind.INVALID_BUDGET ∧
    createRequest stDraft ⟨"u1", "alice@z.com", Role.user⟩ negBudgetData
        false 9 "r9" =
      (Except.error ErrorKind.INVALID_BUDGET, stDraft) :=
  ⟨by decide, createRequest_validation_order stDraft
      ⟨"u1", "alice@z.com", Role.user⟩ negBudgetData false 9 "r9"
      ErrorKind.INVALID_BUDGET (by decide)⟩

/-- A row accepted by the table constraints has distinct requester and
approver (`check_approver_not_self`). -/
theorem travelRowOk_ne (users : List User) (r : TravelRequest)
    (h : travelRowOk users r = true) : r.user_id ≠ r.approver_id := by
  simp only [travelRowOk, Bool.and_eq_true, bne_iff_ne, decide_eq_true_eq] at h
  exact h.1.1.2

/-- A conditional rewrite of rows that touches neither `user_id` nor
`approver_id` preserves the no-self-approval property. -/
theorem noSelfApproval_condMap (l : List TravelRequest)
    (hit : TravelRequest → Bool) (f : TravelRequest → TravelRequest)
    (hfu : ∀ x, (f x).user_id = x.user_id)
    (hfa : ∀ x, (f x).approver_id = x.approver_id)
    (h : ∀ x ∈ l, x.user_id ≠ x.approver_id) :
    ∀ x ∈ l.map (fun y => if hit y then f y else y),
      x.user_id ≠ x.approver_id := by
  intro x hx
  rcases List.mem_map.mp hx with ⟨y, hy, rfl⟩
  by_cases hh : hit y = true
  · rw [if_pos hh, hfu, hfa]
    exact h y hy
  · rw [if_neg hh]
    exact h y hy

/-- The model-level submit preserves no-self-approval. -/
theorem submitDraftRequest_noSelfApproval (st : AppState) (rid : String)
    (now : Int) (h : noSelfApproval st) :
    noSelfApproval (submitDraftRequest st rid now).2 := by
  unfold submitDraftRequest
  cases hf : st.requests.find? (fun x =>
      x.id == rid && x.status == TravelRequestStatus.draft) with
  | none => simpa [hf] using h
  | some r0 =>
    simp only [hf]
    intro x hx
    exact noSelfApproval_condMap st.requests
      (fun y => y.id == rid && y.status == TravelRequestStatus.draft)
      (fun y => { y with status := TravelRequestStatus.pending,
                         submitted_at := some now, updated_at := now })
      (fun _ => rfl) (fun _ => rfl) h x hx

/-- The model-level approve preserves no-self-approval. -/
theorem approveTravelRequest_noSelfApproval (st : AppState) (rid : String)
    (comments : Option String) (now : Int) (h : noSelfApproval st) :
    noSelfApproval (approveTravelRequest st rid comments now).2 := by
  unfold approveTravelRequest
  cases hf : st.requests.find? (fun x =>
      x.id == rid && x.status == TravelRequestStatus.pending) with
  | none => simpa [hf] using h
  | some r0 =>
    simp only [hf]
    intro x hx
    exact noSelfApproval_condMap st.requests
      (fun y => y.id == rid && y.status == TravelRequestStatus.pending)
      (fun y => { y with status := TravelRequestStatus.approved,
                         approval_comments := jsOrNull comments,
                         approved_rejected_at := some now, updated_at := now })
      (fun _ => rfl) (fun _ => rfl) h x hx

/-- The model-level reject preserves no-self-approval. -/
theorem rejectTravelRequest_noSelfApproval (st : AppState) (rid : String)
    (comments : String) (now : Int) (h : noSelfApproval st) :
    noSelfApproval (rejectTravelRequest st rid comments now).2 := by
  unfold rejectTravelRequest
  cases hf : st.requests.find? (fun x =>
      x.id == rid && x.status == TravelRequestStatus.pending) with
  | none => simpa [hf] using h
  | some r0 =>
    simp only [hf]
    intro x hx
    exact noSelfApproval_condMap st.requests
      (fun y => y.id == rid && y.status == TravelRequestStatus.pending)
      (fun y => { y with status := TravelRequestStatus.rejected,
                         approval_comments := some comments,
                         approved_rejected_at := some now, updated_at := now })
      (fun _ => rfl) (fun _ => rfl) h x hx

/-- The model-level cancel preserves no-self-approval. -/
theorem cancelTravelRequest_noSelfApproval (st : AppState) (rid : String)
    (now : Int) (h : noSelfApproval st) :
    noSelfApproval (cancelTravelRequest st rid now).2 := by
  unfold cancelTravelRequest
  cases hf : st.requests.find? (fun x =>
      x.id == rid && x.status == TravelRequestStatus.pending) with
  | none => simpa [hf] using h
  | some r0 =>
    simp only [hf]
    intro x hx
    exact noSelfApproval_condMap st.requests
      (fun y => y.id == rid && y.status == TravelRequestStatus.pending)
      (fun y => { y with status := TravelRequestStatus.cancelled,
                         updated_at := now })
      (fun _ => rfl) (fun _ => rfl) h x hx

/-- The model-level delete preserves no-self-approval. -/
theorem deleteTravelRequest_noSelfApproval (st : AppState) (rid : String)
    (h : noSelfApproval st) :
    noSelfApproval (deleteTravelRequest st rid).2 := by
  unfold deleteTravelRequest
  by_cases ha : st.requests.any (fun x =>
      x.id == rid && x.status == TravelRequestStatus.draft) = true
  · simp only [ha, if_pos]
    intro x hx
    exact h x (List.mem_filter.mp hx).1
  · simp only [Bool.not_eq_true] at ha
    simpa [ha] using h

/-- The model-level draft update preserves no-self-approval: every row it
writes passed the table constraints, every other row is untouched. -/
theorem updateTravelRequest_noSelfApproval (st : AppState) (rid : String)
    (u : UpdateTravelRequestData) (now : Int) (h : noSelfApproval st)
    (o : Option TravelRequest) (st2 : AppState)
    (hm : updateTravelRequest st rid u now = Except.ok (o, st2)) :
    noSelfApproval st2 := by
  unfold updateTravelRequest at hm
  by_cases hf : hasUpdateFields u = true
  · rw [if_pos hf] at hm
    by_cases hbad : (st.requests.any (fun r =>
        (r.id == rid && r.status == TravelRequestStatus.draft) &&
        match patchRow u now r with
        | none => true
        | some r2 => !(travelRowOk st.users r2))) = true
    · rw [if_pos hbad] at hm
      exact absurd hm (by simp)
    · rw [if_neg hbad] at hm
      have hst2 : st2 = { st with requests := st.requests.map (fun r =>
          if r.id == rid && r.status == TravelRequestStatus.draft
          then (patchRow u now r).getD r else r) } :=
        (congrArg Prod.snd (Except.ok.inj hm)).symm
      rw [hst2]
      intro x hx
      rcases List.mem_map.mp hx with ⟨y, hy, rfl⟩
      by_cases hh : (y.id == rid && y.status == TravelRequestStatus.draft) = true
      · rw [if_pos hh]
        have hnb : ¬((y.id == rid && y.status == TravelRequestStatus.draft) &&
            match patchRow u now y with
            | none => true
            | some r2 => !(travelRowOk st.users r2)) = true := by
          intro hc
          exact absurd (List.any_eq_true.mpr ⟨y, hy, hc⟩) hbad
        cases hp : patchRow u now y with
        | none =>
          rw [hp] at hnb
          rw [hh] at hnb
          exact absurd rfl hnb
        | some r2 =>
          have hok : travelRowOk st.users r2 = true := by
            by_cases hok2 : travelRowOk st.users r2 = true
            · exact hok2
            · exfalso
              apply hnb
              rw [hp, hh]
              simp only [Bool.true_and]
              simp [Bool.not_eq_true] at hok2
              simp [hok2]
          exact travelRowOk_ne st.users r2 hok
      · rw [if_neg hh]
        exact h y hy
  · rw [if_neg hf] at hm
    have hst2 : st2 = st := (congrArg Prod.snd (Except.ok.inj hm)).symm
    rw [hst2]
    exact h

/-- The model-level insert preserves no-self-approval: the new row passed
the table constraints. -/
theorem createTravelRequest_noSelfApproval (st : AppState) (uid : String)
    (d : CreateTravelRequestData) (isDraft : Bool) (now : Int)
    (newId : String) (h : noSelfApproval st) (row : TravelRequest)
    (st2 : AppState)
    (hm : createTravelRequest st uid d isDraft now newId =
      Except.ok (row, st2)) : noSelfApproval st2 := by
  unfold createTravelRequest at hm
  simp only [] at hm
  repeat' split at hm
  all_goals try exact Except.noConfusion hm
  all_goals
  · rename_i hRowOk
    have hpair := Except.ok.inj hm
    have hst2 := (Prod.mk.inj hpair).2
    rw [← hst2]
    intro x hx
    rcases List.mem_append.mp hx with hxl | hxr
    · exact h x hxl
    · rw [List.mem_singleton.mp hxr]
      exact travelRowOk_ne st.users _ hRowOk

/-- The model-level user update never touches the requests table. -/
theorem updateUser_requests (st : AppState) (uid : String)
    (u : UserUpdateData) (now : Int) (o : Option User) (st2 : AppState)
    (hm : updateUser st uid u now = Except.ok (o, st2)) :
    st2.requests = st.requests := by
  unfold updateUser at hm
  simp only [] at hm
  repeat' split at hm
  all_goals try exact Except.noConfusion hm
  all_goals
  · have hst2 := (Prod.mk.inj (Except.ok.inj hm)).2
    rw [← hst2]

/-- The create endpoint preserves no-self-approval. -/
theorem createRequest_preserves_noSelfApproval (st : AppState)
    (actor : AuthUser) (d : CreateTravelRequestData) (shouldSubmit : Bool)
    (now : Int) (newId : String) (h : noSelfApproval st) :
    noSelfApproval (createRequest st actor d shouldSubmit now newId).2 := by
  unfold createRequest
  cases h1 : truthyS d.approver_id with
  | false => simpa [h1] using h
  | true =>
  simp only [h1, Bool.not_true, Bool.false_eq_true, if_false]
  cases h2 : truthyS d.destination with
  | false => simpa [h2] using h
  | true =>
  simp only [h2, Bool.not_true, Bool.false_eq_true, if_false]
  cases h3 : truthyD d.departure_date with
  | false => simpa [h3] using h
  | true =>
  simp only [h3, Bool.not_true, Bool.false_eq_true, if_false]
  cases h4 : truthyD d.return_date with
  | false => simpa [h4] using h
  | true =>
  simp only [h4, Bool.not_true, Bool.false_eq_true, if_false]
  cases h5 : truthyS d.purpose with
  | false => simpa [h5] using h
  | true =>
  simp only [h5, Bool.not_true, Bool.false_eq_true, if_false]
  cases h6 : truthyN d.estimated_budget with
  | false => simpa [h6] using h
  | true =>
  simp only [h6, Bool.not_true, Bool.false_eq_true, if_false]
  cases hap : findUserById st (d.approver_id.getD "") with
  | none =>
    simp only [hap]
    repeat' split
    all_goals exact h
  | some approver =>
  simp only [hap]
  repeat' split
  all_goals try exact h
  all_goals
  · rename_i row st2 heq
    exact createTravelRequest_noSelfApproval st actor.userId d
      (!shouldSubmit) now newId h row st2 heq

/-- The update endpoint preserves no-self-approval. -/
theorem updateRequest_preserves_noSelfApproval (st : AppState)
    (actor : AuthUser) (rid : String) (u : UpdateTravelRequestData)
    (now : Int) (h : noSelfApproval st) :
    noSelfApproval (updateRequest st actor rid u now).2 := by
  unfold updateRequest
  cases hf : findTravelRequestById st rid with
  | none =>
    simp only [hf]
    exact h
  | some ex =>
    simp only [hf]
    repeat' split
    all_goals try exact h
    all_goals first
    | (rename_i st2 heq
       exact updateTravelRequest_noSelfApproval st rid u now h none st2 heq)
    | (rename_i r st2 heq
       exact updateTravelRequest_noSelfApproval st rid u now h (some r) st2 heq)

/-- The submit endpoint preserves no-self-approval. -/
theorem submitRequest_preserves_noSelfApproval (st : AppState)
    (actor : AuthUser) (rid : String) (now : Int) (h : noSelfApproval st) :
    noSelfApproval (submitRequest st actor rid now).2 := by
  unfold submitRequest
  cases ho : isRequestOwner st rid actor.userId with
  | false => simpa [ho] using h
  | true =>
    simp only [ho, Bool.not_true, Bool.false_eq_true, if_false]
    have hp := submitDraftRequest_noSelfApproval st rid now h
    cases hq : submitDraftRequest st rid now with
    | mk fst snd =>
      rw [hq] at hp
      cases fst with
      | none => simpa using hp
      | some r => simpa using hp

/-- The approve endpoint preserves no-self-approval. -/
theorem approveRequest_preserves_noSelfApproval (st : AppState)
    (actor : AuthUser) (rid : String) (comments : Option String) (now : Int)
    (h : noSelfApproval st) :
    noSelfApproval (approveRequest st actor rid comments now).2 := by
  unfold approveRequest
  cases ho : !(isRequestApprover st rid actor.userId) &&
      !(actor.role == Role.admin) with
  | true => simpa [ho] using h
  | false =>
    simp only [ho, Bool.false_eq_true, if_false]
    have hp := approveTravelRequest_noSelfApproval st rid comments now h
    cases hq : approveTravelRequest st rid comments now with
    | mk fst snd =>
      rw [hq] at hp
      cases fst with
      | none => simpa using hp
      | some r => simpa using hp

/-- The reject endpoint preserves no-self-approval. -/
theorem rejectRequest_preserves_noSelfApproval (st : AppState)
    (actor : AuthUser) (rid : String) (comments : Option String) (now : Int)
    (h : noSelfApproval st) :
    noSelfApproval (rejectRequest st actor rid comments now).2 := by
  unfold rejectRequest
  by_cases hc : jsTrim (comments.getD "") = ""
  · simpa [hc] using h
  · simp only [if_neg hc]
    cases ho : !(isRequestApprover st rid actor.userId) &&
        !(actor.role == Role.admin) with
    | true => simpa [ho] using h
    | false =>
      simp only [ho, Bool.false_eq_true, if_false]
      have hp := rejectTravelRequest_noSelfApproval st rid
        (comments.getD "") now h
      cases hq : rejectTravelRequest st rid (comments.getD "") now with
      | mk fst snd =>
        rw [hq] at hp
        cases fst with
        | none => simpa using hp
        | some r => simpa using hp

/-- The cancel endpoint preserves no-self-approval. -/
theorem cancelRequest_preserves_noSelfApproval (st : AppState)
    (actor : AuthUser) (rid : String) (now : Int) (h : noSelfApproval st) :
    noSelfApproval (cancelRequest st actor rid now).2 := by
  unfold cancelRequest
  cases ho : isRequestOwner st rid actor.userId with
  | false => simpa [ho] using h
  | true =>
    simp only [ho, Bool.not_true, Bool.false_eq_true, if_false]
    have hp := cancelTravelRequest_noSelfApproval st rid now h
    cases hq : cancelTravelRequest st rid now with
    | mk fst snd =>
      rw [hq] at hp
      cases fst with
      | none => simpa using hp
      | some r => simpa using hp

/-- The delete endpoint preserves no-self-approval. -/
theorem deleteRequest_preserves_noSelfApproval (st : AppState)
    (actor : AuthUser) (rid : String) (h : noSelfApproval st) :
    noSelfApproval (deleteRequest st actor rid).2 := by
  unfold deleteRequest
  cases ho : isRequestOwner st rid actor.userId with
  | false => simpa [ho] using h
  | true =>
    simp only [ho, Bool.not_true, Bool.false_eq_true, if_false]
    have hp := deleteTravelRequest_noSelfApproval st rid h
    cases hq : deleteTravelRequest st rid with
    | mk fst snd =>
      rw [hq] at hp
      cases fst with
      | false => simpa using hp
      | true => simpa using hp

/-- The user-update endpoint never touches the requests table, so it
preserves no-self-approval. -/
theorem updateUserById_preserves_noSelfApproval (st : AppState)
    (actor : AuthUser) (targetId : String) (u : UserUpdateData) (now : Int)
    (h : noSelfApproval st) :
    noSelfApproval (updateUserById st actor targetId u now).2 := by
  unfold updateUserById
  cases hauth : !(actor.role == Role.admin) && !(actor.userId == targetId) with
  | true => simpa [hauth] using h
  | false =>
    simp only [hauth, Bool.false_eq_true, if_false]
    cases hfu : findUserById st targetId with
    | none =>
      simp only [hfu]
      exact h
    | some u0 =>
      simp only [hfu]
      repeat' split
      all_goals try exact h
      all_goals first
      | (rename_i st2 heq
         have hr := updateUser_requests st targetId _ now none st2 heq
         unfold noSelfApproval
         rw [hr]
         exact h)
      | (rename_i u2 st2 heq
         have hr := updateUser_requests st targetId _ now (some u2) st2 heq
         unfold noSelfApproval
         rw [hr]
         exact h)

/-- Claim C2: the no-self-approval invariant `requester_id != approver_id`
holds for every request after every operation of the application core —
including draft updates that change `approver_id`, where the table
constraint `check_approver_not_self` rejects a self-approving write and the
statement throws instead of committing. -/
theorem appStep_preserves_noSelfApproval (st st2 : AppState)
    (hstep : AppStep st st2) (h : noSelfApproval st) : noSelfApproval st2 := by
  cases hstep with
  | create actor d shouldSubmit now newId =>
    exact createRequest_preserves_noSelfApproval st actor d shouldSubmit now
      newId h
  | update actor rid u now =>
    exact updateRequest_preserves_noSelfApproval st actor rid u now h
  | submit actor rid now =>
    exact submitRequest_preserves_noSelfApproval st actor rid now h
  | approve actor rid comments now =>
    exact approveRequest_preserves_noSelfApproval st actor rid comments now h
  | reject actor rid comments now =>
    exact rejectRequest_preserves_noSelfApproval st actor rid comments now h
  | cancel actor rid now =>
    exact cancelRequest_preserves_noSelfApproval st actor rid now h
  | delete actor rid =>
    exact deleteRequest_preserves_noSelfApproval st actor rid h
  | userUpdate actor targetId u now =>
    exact updateUserById_preserves_noSelfApproval st actor targetId u now h

/-- Witness for C2: the invariant holds after a concrete submit step from a
concrete invariant-satisfying state. -/
theorem appStep_preserves_noSelfApproval_witness :
    noSelfApproval
      (submitRequest stDraft ⟨"u1", "alice@z.com", Role.user⟩ draftReq.id 6).2 :=
  appStep_preserves_noSelfApproval stDraft _
    (AppStep.submit stDraft ⟨"u1", "alice@z.com", Role.user⟩ draftReq.id 6)
    (by unfold noSelfApproval; decide)
